import Mathlib

/-!
Verification development for the POC_GLaDOS message-routing and
tool-invocation orchestration engine.

The Python sources under `src/glados` are shallowly embedded here:
pure functions become Lean functions, methods that mutate object state
become explicit state passing, `async` methods that may raise become
`Except String`-valued functions (the `String` is the text `str(e)` of
the raised exception), and external collaborators (the LlamaIndex agent,
the Tapo network client, module constructors) are parameters supplied by
the caller, each returning `Except String` results.
-/

set_option maxRecDepth 2000

/-! ## Python value model

Configuration entries in the source are plain Python dicts
(`Dict[str, Any]`).  We model the values that actually occur in the
configuration shapes the engine reads: strings, booleans, integers and
lists of strings. -/

inductive PyVal where
  | s (v : String)
  | b (v : Bool)
  | i (v : Int)
  | ls (v : List String)
  deriving DecidableEq, Repr

/-- A Python `dict` as an ordered association list (first binding wins,
as produced by dict construction without duplicate keys). -/
abbrev PyDict := List (String × PyVal)

/-- `d.get(key)` — `None` when absent. -/
def dict_get (d : PyDict) (key : String) : Option PyVal :=
  d.lookup key

/-- Python truthiness of a configuration value. -/
def py_truthy : PyVal → Bool
  | .s v => v ≠ ""
  | .b v => v
  | .i v => v ≠ 0
  | .ls v => v ≠ []

/-- `d.get(key, default)` used in a boolean context
(e.g. `tool_config.get('enabled', False)`). -/
def get_bool (d : PyDict) (key : String) (default : Bool) : Bool :=
  match dict_get d key with
  | some v => py_truthy v
  | none => default

/-- `d.get(key)` for a string-valued entry; `none` when absent or not a
string. -/
def get_str (d : PyDict) (key : String) : Option String :=
  match dict_get d key with
  | some (.s v) => some v
  | _ => none

/-- Python `str.upper()` restricted to its character-wise ASCII action
(`String.toUpper` of the library is definitionally opaque to the
kernel, so the same function is written over the character list). -/
def py_upper (s : String) : String :=
  String.mk (s.data.map Char.toUpper)

/-! ## Message model (`src/glados/core/interfaces.py`)

`MessageType` and `GLaDOSMessage` are translated directly. `metadata`
is an optional dict; the values stored in it by the engine are strings,
so we use `List (String × String)` for the mapping. -/

inductive MessageType where
  | text
  | voice
  | command
  | error
  | status
  deriving DecidableEq, Repr

/-- The `.value` of the Python enum member. -/
def MessageType.value : MessageType → String
  | .text => "text"
  | .voice => "voice"
  | .command => "command"
  | .error => "error"
  | .status => "status"

structure GLaDOSMessage where
  content : String
  message_type : MessageType
  source : String
  metadata : Option (List (String × String)) := none
  deriving DecidableEq, Repr

/-! ## Module-family factories
(`src/glados/core/interfaces.py` lines 190-271,
`src/glados/core/factories/tool_factory.py`)

Each factory keeps a class-level registry `Dict[str, type]` and
`create` instantiates the registered class with `(name, config)`.
A class is modelled as a constructor function that may itself raise
(`ConfigurationError` style failures), hence
`String → PyDict → Except String α`.  The registry map is modelled as a
function `String → Option ctor` (Python dict assignment = pointwise
update, last assignment wins). -/

namespace InputModuleFactory

def register {α : Type} (reg : String → Option (String → PyDict → Except String α))
    (module_type : String) (module_class : String → PyDict → Except String α) :
    String → Option (String → PyDict → Except String α) :=
  fun k => if k = module_type then some module_class else reg k

def create {α : Type} (reg : String → Option (String → PyDict → Except String α))
    (module_type : String) (name : String) (config : PyDict) : Except String α :=
  match reg module_type with
  | none => Except.error ("Type de module inconnu: " ++ module_type)
  | some module_class => module_class name config

end InputModuleFactory

namespace ToolAdapterFactory

def register {α : Type} (reg : String → Option (String → PyDict → Except String α))
    (tool_type : String) (adapter_class : String → PyDict → Except String α) :
    String → Option (String → PyDict → Except String α) :=
  fun k => if k = tool_type then some adapter_class else reg k

def create {α : Type} (reg : String → Option (String → PyDict → Except String α))
    (tool_type : String) (name : String) (config : PyDict) : Except String α :=
  match reg tool_type with
  | none => Except.error ("Type inconnu: " ++ tool_type)
  | some adapter_class => adapter_class name config

end ToolAdapterFactory

/-! ## Configuration model (`src/glados/config/config_manager.py` lines 15-50)

The dataclasses are translated field by field.  `CoreConfig.temperature`
is a float used only as an LLM hyper-parameter; no claim depends on it
and it is omitted from the embedding. -/

structure CoreConfig where
  model_name : String := "gpt-3.5-turbo"
  max_iterations : Int := 10
  verbose : Bool := true
  system_prompt : Option String := none
  deriving DecidableEq, Repr

structure InputConfig where
  enabled : Bool := true
  wake_word : Option PyDict := none
  web : Option PyDict := none
  discord : Option PyDict := none
  terminal : Option PyDict := none
  deriving DecidableEq, Repr

structure OutputConfig where
  enabled : Bool := true
  tts_glados : Option PyDict := none
  terminal : Option PyDict := none
  deriving DecidableEq, Repr

structure GLaDOSConfig where
  core : CoreConfig
  inputs : InputConfig
  outputs : OutputConfig
  tools : List (String × PyDict)
  deriving DecidableEq, Repr

/-! ## Engine state and response routing
(`src/glados/core/react_engine.py`)

`self.input_modules` and `self.output_modules` are dicts from module
name to live module instance; for routing only the key sets (in
insertion order) matter, so the engine state records the key lists.
`is_running` is the lifecycle flag. -/

structure GLaDOSReActEngine where
  config : GLaDOSConfig
  input_modules : List String
  output_modules : List String
  is_running : Bool := false
  deriving DecidableEq, Repr

/-- One delivery attempt made by `_send_response`: either
`module.send_message(message)` on a named output module, or the direct
`send_response_to_web(message.content)` call on the web input module.
Per-delivery failures are caught and logged in the source, so the
routing outcome is exactly this list of attempts. -/
inductive Delivery where
  | toOutput (name : String)
  | webReply (content : String)
  deriving DecidableEq, Repr

/-- `GLaDOSReActEngine._send_response` (react_engine.py lines 355-401),
translated branch by branch.  Note that the method never consults
`self.config`: the choice of output modules is hardcoded per source
name, with a broadcast fallback when the selected list is empty. -/
def _send_response (engine : GLaDOSReActEngine) (message : GLaDOSMessage)
    (original_source : String) : List Delivery :=
  let output_modules_to_use : List String :=
    if original_source = "wake_word" then
      (if engine.output_modules.contains "tts_glados" then ["tts_glados"] else []) ++
      (if engine.output_modules.contains "terminal_output" then ["terminal_output"] else [])
    else if original_source = "terminal" then
      (if engine.output_modules.contains "terminal_output" then ["terminal_output"] else []) ++
      (if engine.output_modules.contains "tts_glados" then ["tts_glados"] else [])
    else if original_source = "web" then
      (if engine.output_modules.contains "terminal_output" then ["terminal_output"] else [])
    else
      []
  let web_replies : List Delivery :=
    if original_source = "web" then
      (if engine.input_modules.contains "web" then [Delivery.webReply message.content] else [])
    else []
  let final_outputs :=
    if output_modules_to_use.isEmpty then engine.output_modules else output_modules_to_use
  web_replies ++ final_outputs.map Delivery.toOutput

/-- `GLaDOSReActEngine._process_with_agent` (react_engine.py lines
338-353).  The ReAct agent collaborator is a parameter that either
returns a response or raises; the method catches every exception and
returns an apology string containing the error text. -/
def _process_with_agent (agent : String → Except String String) (query : String) : String :=
  match agent query with
  | Except.ok result => result
  | Except.error e => "Je n\x27ai pas pu traiter votre demande: " ++ e

/-- `GLaDOSReActEngine._handle_input_message` (react_engine.py lines
301-336): query the agent, build the reply message, route it.  The
function returns the reply message together with the delivery attempts
of `_send_response`.  The `except` clause of the source (which would
build a `MessageType.ERROR` reply without metadata) is unreachable for
agent failures, because `_process_with_agent` already catches them and
returns the apology text as an ordinary response string. -/
def _handle_input_message (engine : GLaDOSReActEngine)
    (agent : String → Except String String) (message : GLaDOSMessage) :
    GLaDOSMessage × List Delivery :=
  let response := _process_with_agent agent message.content
  let response_message : GLaDOSMessage :=
    { content := response
      message_type := MessageType.text
      source := "glados_engine"
      metadata := some [("original_source", message.source),
                        ("original_type", message.message_type.value)] }
  (response_message, _send_response engine response_message message.source)

/-- Modelled from the spec: the per-source `outputs` configuration entry
of spec section 6 (`inputs.<name>.outputs`, an ordered list of
output-module names, absent or empty meaning broadcast fallback).  The
engine source never reads this entry; this definition exists only to
state claim C1 against the code. -/
def configured_outputs (config : GLaDOSConfig) (source : String) : List String :=
  let entry : Option PyDict :=
    if source = "wake_word" then config.inputs.wake_word
    else if source = "web" then config.inputs.web
    else if source = "discord" then config.inputs.discord
    else if source = "terminal" then config.inputs.terminal
    else none
  match entry with
  | some d =>
    match dict_get d "outputs" with
    | some (.ls l) => l
    | _ => []
  | none => []

/-- The hardcoded per-source preference order of `_send_response`
(used to state the amended routing claim). -/
def hardcoded_route (source : String) : List String :=
  if source = "wake_word" then ["tts_glados", "terminal_output"]
  else if source = "terminal" then ["terminal_output", "tts_glados"]
  else if source = "web" then ["terminal_output"]
  else []

/-! ## Bulk construction of tools and modules
(`src/glados/core/react_engine.py` lines 47-102 and 219-299)

`_initialize_tools` loops over `config.tools`; each enabled entry is
constructed through the tool factory inside a per-entry `try/except`
that logs and continues.  The constructor collaborator (factory lookup,
class construction, and the llama-tool wrapping) is a parameter
`create` that may fail with the exception text.  The loop itself can
never raise: both outcomes of `create` are handled. -/

def init_tools {α : Type} (create : String → PyDict → Except String α) :
    List (String × PyDict) → List (String × α) × List String
  | [] => ([], [])
  | (tool_name, tool_config) :: rest =>
    if get_bool tool_config "enabled" false then
      match create tool_name tool_config with
      | Except.ok adapter =>
        let r := init_tools create rest
        ((tool_name, adapter) :: r.1, r.2)
      | Except.error e =>
        let r := init_tools create rest
        (r.1, e :: r.2)
    else init_tools create rest

/-- The tool catalog published to the agent: one llama tool per
successfully registered adapter (react_engine.py lines 95-97). -/
def tool_catalog {α : Type} (tool_adapters : List (String × α)) : List String :=
  tool_adapters.map Prod.fst

/-- The guard of each input/output-module block: the Python truthiness
check on the config dict (`inputs_config.wake_word and ...`) followed by
`.get('enabled', <default>)`, where the default is `True` for the
terminal blocks and `False` for the others. -/
def module_entry_enabled (entry : String × PyDict × Bool) : Bool :=
  decide (entry.2.1 ≠ []) && get_bool entry.2.1 "enabled" entry.2.2

/-- The per-module blocks of `_initialize_input_modules` /
`_initialize_output_modules`: each present, enabled entry is
constructed via the factory, its `initialize()` coroutine is awaited,
and on success it is registered; any exception from either step is
caught and the entry skipped.  The boolean returned by `initialize()`
is ignored by the source (only a raise prevents registration). -/
def init_module_entries {β : Type} (create : String → PyDict → Except String β)
    (mod_init : β → Except String Bool) :
    List (String × PyDict × Bool) → List (String × β)
  | [] => []
  | (name, cfg, default_enabled) :: rest =>
    if module_entry_enabled (name, cfg, default_enabled) then
      match create name cfg with
      | Except.ok m =>
        match mod_init m with
        | Except.ok _ => (name, m) :: init_module_entries create mod_init rest
        | Except.error _ => init_module_entries create mod_init rest
      | Except.error _ => init_module_entries create mod_init rest
    else init_module_entries create mod_init rest

/-- The four hardcoded input blocks of `_initialize_input_modules`
(react_engine.py lines 229-275) in source order, with their
`enabled` defaults (`terminal` defaults to enabled). -/
def input_entries (inputs_config : InputConfig) : List (String × PyDict × Bool) :=
  (match inputs_config.wake_word with
    | some cfg => [("wake_word", cfg, false)] | none => []) ++
  (match inputs_config.discord with
    | some cfg => [("discord", cfg, false)] | none => []) ++
  (match inputs_config.terminal with
    | some cfg => [("terminal", cfg, true)] | none => []) ++
  (match inputs_config.web with
    | some cfg => [("web", cfg, false)] | none => [])

/-- The two hardcoded output blocks of `_initialize_output_modules`
(react_engine.py lines 277-299); the terminal output is registered
under the key `terminal_output` and defaults to enabled. -/
def output_entries (outputs_config : OutputConfig) : List (String × PyDict × Bool) :=
  (match outputs_config.tts_glados with
    | some cfg => [("tts_glados", cfg, false)] | none => []) ++
  (match outputs_config.terminal with
    | some cfg => [("terminal_output", cfg, true)] | none => [])

def init_input_modules {β : Type} (create : String → PyDict → Except String β)
    (mod_init : β → Except String Bool) (inputs_config : InputConfig) :
    List (String × β) :=
  init_module_entries create mod_init (input_entries inputs_config)

def init_output_modules {γ : Type} (create : String → PyDict → Except String γ)
    (mod_init : γ → Except String Bool) (outputs_config : OutputConfig) :
    List (String × γ) :=
  init_module_entries create mod_init (output_entries outputs_config)

def except_is_ok {ε α : Type} : Except ε α → Bool
  | Except.ok _ => true
  | Except.error _ => false

/-- `GLaDOSReActEngine.initialize` (react_engine.py lines 47-71): run
the four steps inside one `try`; any exception is caught, logged and
turned into a `False` return.  The LLM-backend construction and the
agent construction are collaborators that may raise
(`llm_step`, `agent_step`); the tool and module bulk constructors
catch per-entry, so they are total.  The returned tuple carries the
success flag and the registered maps. -/
def engine_init {α β γ : Type}
    (llm_step : Except String Unit)
    (create_tool : String → PyDict → Except String α)
    (agent_step : Except String Unit)
    (create_input : String → PyDict → Except String β)
    (input_init : β → Except String Bool)
    (create_output : String → PyDict → Except String γ)
    (output_init : γ → Except String Bool)
    (config : GLaDOSConfig) :
    Except String (Bool × (List (String × α) × List String)
      × List (String × β) × List (String × γ)) :=
  match llm_step with
  | Except.error _ => Except.ok (false, ([], []), [], [])
  | Except.ok _ =>
    let tools_result := init_tools create_tool config.tools
    match agent_step with
    | Except.error _ => Except.ok (false, tools_result, [], [])
    | Except.ok _ =>
      let inputs_result :=
        if config.inputs.enabled then
          init_input_modules create_input input_init config.inputs
        else []
      let outputs_result :=
        if config.outputs.enabled then
          init_output_modules create_output output_init config.outputs
        else []
      Except.ok (true, tools_result, inputs_result, outputs_result)

/-! ## Engine lifecycle (`src/glados/core/react_engine.py` lines 403-442)
and terminal-input cleanup
(`src/glados/inputs/terminal/terminal_input.py` lines 68-78, 249-252). -/

inductive EngineEffect where
  | warnedAlreadyRunning
  | startedListening (name : String)
  | cleanedModule (name : String)
  deriving DecidableEq, Repr

/-- `GLaDOSReActEngine.start`: warn and return when already running;
otherwise set the flag and start every input module concurrently
(failures gathered with `return_exceptions=True`, not propagated). -/
def engine_start (engine : GLaDOSReActEngine) :
    GLaDOSReActEngine × List EngineEffect :=
  if engine.is_running then (engine, [EngineEffect.warnedAlreadyRunning])
  else ({ engine with is_running := true },
        engine.input_modules.map EngineEffect.startedListening)

/-- `GLaDOSReActEngine.stop`: return when not running; otherwise clear
the flag and clean up every input and output module (gathered,
exceptions collected). -/
def engine_stop (engine : GLaDOSReActEngine) :
    GLaDOSReActEngine × List EngineEffect :=
  if engine.is_running then
    ({ engine with is_running := false },
     (engine.input_modules ++ engine.output_modules).map EngineEffect.cleanedModule)
  else (engine, [])

inductive TaskState where
  | running
  | done
  deriving DecidableEq, Repr

structure TerminalInput where
  is_active : Bool := false
  listening_task : Option TaskState := none
  deriving DecidableEq, Repr

/-- `TerminalInput.stop_listening`: cancel the listening task when one
is alive (the `CancelledError` from awaiting it is swallowed), then
emit a lifecycle event (`emit_event` catches per-handler failures, so
it cannot raise). -/
def TerminalInput.stop_listening (t : TerminalInput) : TerminalInput :=
  match t.listening_task with
  | some TaskState.running => { t with listening_task := some TaskState.done }
  | _ => t

/-- `TerminalInput.cleanup`: `stop_listening` then a log line.  Every
raising path inside it is wrapped (`CancelledError` is caught,
`emit_event` catches handler exceptions), so the coroutine always
returns normally; the `Except` result is its raise channel. -/
def TerminalInput.cleanup (t : TerminalInput) : Except String TerminalInput :=
  Except.ok (TerminalInput.stop_listening t)

/-! ## Tapo tool adapter (`src/glados/tools/tapo/tapo_adapter.py`)

The adapter validates agent-supplied parameters with per-action
pydantic models against the module-global `DEVICE_TYPE_MAPPING`, then
performs network calls through the `tapo` client.  The global mapping
is explicit state here; the network client is a collaborator
`TapoIOCall → Except String TapoIOResult` whose `String` is the text
of the raised exception. -/

inductive TapoDeviceType where
  | P110
  | L530
  deriving DecidableEq, Repr

/-- `TapoDeviceType(device_type_str)`: the Python enum lookup by value,
`none` for an unrecognized type string (the `ValueError` branch). -/
def tapo_device_type_of_string (s : String) : Option TapoDeviceType :=
  if s = "P110" then some TapoDeviceType.P110
  else if s = "L530" then some TapoDeviceType.L530
  else none

/-- `DEVICE_ACTIONS` (tapo_adapter.py lines 34-38), with the actions as
their enum string values. -/
def DEVICE_ACTIONS : TapoDeviceType → List String
  | TapoDeviceType.P110 => ["on", "off", "toggle", "get_info"]
  | TapoDeviceType.L530 =>
    ["on", "off", "toggle", "get_info", "set_brightness", "set_color"]

/-- `TAPO_COLORS` (tapo_adapter.py lines 45-64). -/
def TAPO_COLORS : List (String × (Int × Int × Int)) :=
  [("red", (255, 0, 0)), ("green", (0, 255, 0)), ("blue", (0, 0, 255)),
   ("white", (255, 255, 255)), ("yellow", (255, 255, 0)),
   ("orange", (255, 165, 0)), ("purple", (128, 0, 128)),
   ("pink", (255, 192, 203)), ("cyan", (0, 255, 255)),
   ("magenta", (255, 0, 255)), ("warm_white", (255, 244, 229)),
   ("cool_white", (237, 245, 255)), ("lime", (50, 205, 50)),
   ("navy", (0, 0, 128)), ("teal", (0, 128, 128)), ("maroon", (128, 0, 0))]

/-- `TapoAdapter._update_device_type_mapping` (lines 260-277): clear the
module-global `DEVICE_TYPE_MAPPING`, then repopulate it from this
instance's device configuration, keeping exactly the devices whose
`type` entry parses to a known `TapoDeviceType` (after `.upper()`);
unrecognized types are logged and skipped.  The previous mapping is an
argument only to exhibit that it is discarded. -/
def _update_device_type_mapping (devices : List (String × PyDict))
    (prev_mapping : List (String × TapoDeviceType)) :
    List (String × TapoDeviceType) :=
  match devices with
  | [] => []
  | (device_id, device_config) :: rest =>
    match tapo_device_type_of_string (py_upper ((get_str device_config "type").getD "")) with
    | some ty => (device_id, ty) :: _update_device_type_mapping rest prev_mapping
    | none => _update_device_type_mapping rest prev_mapping

/-- `TapoBaseParameters.validate_device_exists` (lines 74-83): the
device name must be a key of the global `DEVICE_TYPE_MAPPING`;
otherwise a `ValueError` listing the available devices. -/
def validate_device_exists (mapping : List (String × TapoDeviceType))
    (device_name : String) : Except String Unit :=
  match mapping.lookup device_name with
  | some _ => Except.ok ()
  | none => Except.error ("Appareil " ++ device_name ++
      " non configure. Appareils disponibles: " ++
      String.intercalate ", " (mapping.map Prod.fst))

/-- The Tapo tool configuration shape: the `email`/`password`/
`tool_name` entries plus the nested `devices` dict (each device a dict
with `ip`, `type` and optional `name`). -/
structure TapoToolConfig where
  email : Option String := none
  password : Option String := none
  devices : List (String × PyDict) := []
  tool_name : Option String := none
  deriving DecidableEq, Repr

structure TapoAdapter where
  email : String
  password : String
  devices : List (String × PyDict)
  tool_name : String
  deriving DecidableEq, Repr

/-- Python `a or b` over optional strings: the first operand wins
unless it is falsy (`None` or the empty string). -/
def or_falsy (a b : Option String) : Option String :=
  match a with
  | some v => if v = "" then b else some v
  | none => b

/-- `TapoAdapter.__init__` (lines 234-258): resolve credentials from
config or environment, raise `ValueError` when either is missing,
take the tool name from config (default `control_tapo_device`), and
clear-and-repopulate the global `DEVICE_TYPE_MAPPING` from this
instance's devices.  Returns the adapter together with the new global
mapping. -/
def TapoAdapter.construct (config : TapoToolConfig)
    (env_email env_password : Option String)
    (prev_mapping : List (String × TapoDeviceType)) :
    Except String (TapoAdapter × List (String × TapoDeviceType)) :=
  match or_falsy config.email env_email, or_falsy config.password env_password with
  | some em, some pw =>
    if em = "" ∨ pw = "" then Except.error "Email et mot de passe Tapo requis"
    else
      Except.ok
        ({ email := em, password := pw, devices := config.devices,
           tool_name := config.tool_name.getD "control_tapo_device" },
         _update_device_type_mapping config.devices prev_mapping)
  | _, _ => Except.error "Email et mot de passe Tapo requis"

/-- The keyword arguments the agent passes to `execute`. -/
structure TapoKwargs where
  action : Option String := none
  device_name : Option String := none
  value : Option Int := none
  r : Option Int := none
  g : Option Int := none
  b : Option Int := none
  color : Option String := none
  deriving DecidableEq, Repr

/-- Parameters surviving validation (the fields `_execute_action`
reads; for a named color the RGB triple is already resolved through
`TAPO_COLORS`, as in the `TempParams` conversion of the source). -/
structure TapoValidated where
  device_name : String
  action : String
  value : Option Int := none
  rgb : Option (Int × Int × Int) := none
  deriving DecidableEq, Repr

/-- The base-model validation: `device_name` is a required field, then
`validate_device_exists` runs against the global mapping. -/
def validate_tapo_base (mapping : List (String × TapoDeviceType))
    (kw : TapoKwargs) : Except String String :=
  match kw.device_name with
  | none => Except.error "Field required: device_name"
  | some d =>
    match validate_device_exists mapping d with
    | Except.ok _ => Except.ok d
    | Except.error e => Except.error e

/-- The `supports` model validators: when the device type is known and
the action is not in `DEVICE_ACTIONS` for it, reject. -/
def validate_device_supports (mapping : List (String × TapoDeviceType))
    (d : String) (action : String) : Except String Unit :=
  match mapping.lookup d with
  | some ty =>
    if action ∈ DEVICE_ACTIONS ty then Except.ok ()
    else Except.error ("Action " ++ action ++ " non supportee pour " ++ d)
  | none => Except.ok ()

/-- The validation dispatch of `execute` (lines 305-341): require
`action`, then build the per-action pydantic model; pydantic field
constraints (required fields, numeric ranges) run before the
after-model validators (device exists, device supports action).
An unrecognized action raises `ValueError`. -/
def validate_tapo_params (mapping : List (String × TapoDeviceType))
    (kw : TapoKwargs) : Except String TapoValidated :=
  match kw.action with
  | none => Except.error "Parametre action obligatoire"
  | some a =>
    if a = "on" ∨ a = "off" ∨ a = "toggle" ∨ a = "get_info" then
      match validate_tapo_base mapping kw with
      | Except.error e => Except.error e
      | Except.ok d => Except.ok { device_name := d, action := a }
    else if a = "set_brightness" then
      match kw.value with
      | none => Except.error "Field required: value"
      | some v =>
        if v < 0 ∨ v > 100 then
          Except.error "value: Input should be between 0 and 100"
        else
          match validate_tapo_base mapping kw with
          | Except.error e => Except.error e
          | Except.ok d =>
            match validate_device_supports mapping d a with
            | Except.error e => Except.error e
            | Except.ok _ =>
              Except.ok { device_name := d, action := a, value := some v }
    else if a = "set_color" then
      match kw.color with
      | some c =>
        match validate_tapo_base mapping kw with
        | Except.error e => Except.error e
        | Except.ok d =>
          match TAPO_COLORS.lookup c with
          | none => Except.error ("Couleur " ++ c ++ " non supportee")
          | some rgb =>
            match validate_device_supports mapping d a with
            | Except.error e => Except.error e
            | Except.ok _ =>
              Except.ok { device_name := d, action := a, rgb := some rgb }
      | none =>
        match kw.r, kw.g, kw.b with
        | some r, some g, some b =>
          if r < 0 ∨ r > 255 ∨ g < 0 ∨ g > 255 ∨ b < 0 ∨ b > 255 then
            Except.error "r, g, b: Input should be between 0 and 255"
          else
            match validate_tapo_base mapping kw with
            | Except.error e => Except.error e
            | Except.ok d =>
              match validate_device_supports mapping d a with
              | Except.error e => Except.error e
              | Except.ok _ =>
                Except.ok { device_name := d, action := a, rgb := some (r, g, b) }
        | _, _, _ => Except.error "Field required: r, g, b"
    else Except.error ("Action " ++ a ++ " non reconnue")

/-- One call on the Tapo client/device object. -/
inductive TapoIOCall where
  | connect_p110 (ip : String)
  | connect_l530 (ip : String)
  | dev_on
  | dev_off
  | get_device_info
  | set_brightness (value : Int)
  | set_color (r g b : Int)
  deriving DecidableEq, Repr

structure TapoDeviceInfo where
  device_on : Option Bool := none
  brightness : Option Int := none
  color_temp : Option Int := none
  hue : Option Int := none
  saturation : Option Int := none
  deriving DecidableEq, Repr

inductive TapoIOResult where
  | unit
  | info (i : TapoDeviceInfo)
  deriving DecidableEq, Repr

/-- The structured result dict of `execute`; only the fields the
source ever sets. -/
structure TapoExecResult where
  success : Bool
  error : Option String := none
  action_msg : Option String := none
  device_name : Option String := none
  device_type : Option String := none
  available_devices : Option (List String) := none
  info : Option TapoDeviceInfo := none
  deriving DecidableEq, Repr

/-- `TapoAdapter._execute_action` (lines 392-470): perform the device
call for the validated action inside its own `try/except`, converting
any raise into `success False` with the exception text.  The
call-convention fallback chain for `set_color` is collapsed into the
single collaborator call.  An absent `device_on` attribute reads as
`False` (the `hasattr` default). -/
def tapo_execute_action (tapo_io : TapoIOCall → Except String TapoIOResult)
    (params : TapoValidated) (device_type : String) : TapoExecResult :=
  if params.action = "on" then
    match tapo_io TapoIOCall.dev_on with
    | Except.ok _ => { success := true, action_msg := some "allume" }
    | Except.error e => { success := false, error := some e }
  else if params.action = "off" then
    match tapo_io TapoIOCall.dev_off with
    | Except.ok _ => { success := true, action_msg := some "eteint" }
    | Except.error e => { success := false, error := some e }
  else if params.action = "toggle" then
    match tapo_io TapoIOCall.get_device_info with
    | Except.error e => { success := false, error := some e }
    | Except.ok r =>
      let is_on :=
        match r with
        | TapoIOResult.info i => i.device_on.getD false
        | TapoIOResult.unit => false
      if is_on then
        match tapo_io TapoIOCall.dev_off with
        | Except.ok _ => { success := true, action_msg := some "eteint (bascule)" }
        | Except.error e => { success := false, error := some e }
      else
        match tapo_io TapoIOCall.dev_on with
        | Except.ok _ => { success := true, action_msg := some "allume (bascule)" }
        | Except.error e => { success := false, error := some e }
  else if params.action = "set_brightness" ∧ py_upper device_type = "L530" then
    match params.value with
    | some v =>
      match tapo_io (TapoIOCall.set_brightness v) with
      | Except.ok _ => { success := true, action_msg := some "luminosite reglee" }
      | Except.error e => { success := false, error := some e }
    | none => { success := false, error := some "TypeError: value manquant" }
  else if params.action = "set_color" ∧ py_upper device_type = "L530" then
    match params.rgb with
    | some (r, g, b) =>
      match tapo_io (TapoIOCall.set_color r g b) with
      | Except.ok _ => { success := true, action_msg := some "couleur reglee" }
      | Except.error e => { success := false, error := some e }
    | none => { success := false, error := some "TypeError: rgb manquant" }
  else if params.action = "get_info" then
    match tapo_io TapoIOCall.get_device_info with
    | Except.ok (TapoIOResult.info i) => { success := true, info := some i }
    | Except.ok TapoIOResult.unit => { success := true, info := some {} }
    | Except.error e => { success := false, error := some e }
  else
    { success := false, error := some ("Action non supportee: " ++ params.action) }

/-- `TapoAdapter.execute` (lines 301-390): validate, double-check the
device against `self.devices`, read its `ip` and `type` (a missing key
is a `KeyError` caught by the outer handler), connect by type, perform
the action, and attach the display name and type to the result.  The
outer `except Exception` converts every raise — validation
`ValueError`s and collaborator exceptions alike — into
`success False` with the exception text, so the function is total. -/
def TapoAdapter.execute (adapter : TapoAdapter)
    (mapping : List (String × TapoDeviceType))
    (tapo_io : TapoIOCall → Except String TapoIOResult)
    (kw : TapoKwargs) : TapoExecResult :=
  match validate_tapo_params mapping kw with
  | Except.error e => { success := false, error := some e }
  | Except.ok params =>
    if params.device_name = "" then
      { success := false
        error := some ("Appareil " ++ params.device_name ++ " introuvable")
        available_devices := some (adapter.devices.map Prod.fst) }
    else
      match adapter.devices.lookup params.device_name with
      | none =>
        { success := false
          error := some ("Appareil " ++ params.device_name ++ " introuvable")
          available_devices := some (adapter.devices.map Prod.fst) }
      | some device_config =>
        match get_str device_config "ip" with
        | none => { success := false, error := some "KeyError: ip" }
        | some device_ip =>
          match get_str device_config "type" with
          | none => { success := false, error := some "KeyError: type" }
          | some device_type =>
            if py_upper device_type = "P110" then
              match tapo_io (TapoIOCall.connect_p110 device_ip) with
              | Except.error e => { success := false, error := some e }
              | Except.ok _ =>
                let base := tapo_execute_action tapo_io params device_type
                { base with
                  device_name := some ((get_str device_config "name").getD params.device_name)
                  device_type := some device_type }
            else if py_upper device_type = "L530" then
              match tapo_io (TapoIOCall.connect_l530 device_ip) with
              | Except.error e => { success := false, error := some e }
              | Except.ok _ =>
                let base := tapo_execute_action tapo_io params device_type
                { base with
                  device_name := some ((get_str device_config "name").getD params.device_name)
                  device_type := some device_type }
            else
              { success := false
                error := some ("Type d appareil non supporte: " ++ device_type) }

/-! ## Configuration loading: environment-variable substitution
(`src/glados/config/config_manager.py` lines 103-129)

`_substitute_env_vars` walks the raw configuration tree (dicts, lists,
strings, scalars) and applies `re.sub` with the pattern
`\x5c$\x5c\x7b([^\x7d]+)\x5c\x7d` to every string: each occurrence of a
dollar-brace placeholder around a non-empty brace-free variable name is
replaced by `os.getenv(name)` when the variable is set, and kept as the
literal matched text otherwise.  Python strings are modelled as
`List Char` so the left-to-right scan of `re.sub` can be written as
plain recursion; the environment is a parameter. -/

/-- Split a character list at its first closing brace: when one exists,
return the (brace-free) prefix and the suffix after the brace, together
with the length bound that makes the scanner terminate. -/
def braceSplit : (l : List Char) →
    Option { p : List Char × List Char // p.2.length < l.length }
  | [] => none
  | c :: rest =>
    if c = '}' then some ⟨([], rest), by simp⟩
    else
      match braceSplit rest with
      | none => none
      | some ⟨(content, after), hlt⟩ =>
        some ⟨(c :: content, after), Nat.lt_succ_of_lt hlt⟩

/-- The `re.sub` scan: at each position, a match requires a dollar, an
opening brace, at least one non-brace character and a closing brace; a
match is replaced (set variable) or kept literally (unset variable) and
scanning resumes after it; everywhere else the scan advances one
character. -/
def substitute_env_vars_chars (env : List Char → Option (List Char)) :
    List Char → List Char
  | [] => []
  | c :: rest =>
    if c = '$' then
      match _hr : rest with
      | '{' :: r2 =>
        match braceSplit r2 with
        | some ⟨(content, after), _hlt⟩ =>
          if content = [] then c :: substitute_env_vars_chars env rest
          else
            (match env content with
             | some v => v
             | none => '$' :: '{' :: (content ++ ['}'])) ++
            substitute_env_vars_chars env after
        | none => c :: substitute_env_vars_chars env rest
      | _ => c :: substitute_env_vars_chars env rest
    else c :: substitute_env_vars_chars env rest
termination_by l => l.length
decreasing_by
  all_goals simp_all [List.length_cons]
  all_goals omega

/-- The raw configuration tree as loaded from YAML/JSON, before
validation. -/
inductive ConfigValue where
  | str (s : List Char)
  | int (n : Int)
  | boolean (b : Bool)
  | null
  | dict (entries : List (List Char × ConfigValue))
  | list (xs : List ConfigValue)

mutual

/-- `ConfigManager._substitute_env_vars`: recurse through dicts (values
only, keys untouched) and lists, substitute in strings, return every
other value unchanged. -/
def substitute_env_vars (env : List Char → Option (List Char)) :
    ConfigValue → ConfigValue
  | ConfigValue.str s => ConfigValue.str (substitute_env_vars_chars env s)
  | ConfigValue.dict entries =>
    ConfigValue.dict (substitute_env_vars_dict env entries)
  | ConfigValue.list xs => ConfigValue.list (substitute_env_vars_list env xs)
  | ConfigValue.int n => ConfigValue.int n
  | ConfigValue.boolean b => ConfigValue.boolean b
  | ConfigValue.null => ConfigValue.null

def substitute_env_vars_dict (env : List Char → Option (List Char)) :
    List (List Char × ConfigValue) → List (List Char × ConfigValue)
  | [] => []
  | (k, v) :: rest =>
    (k, substitute_env_vars env v) :: substitute_env_vars_dict env rest

def substitute_env_vars_list (env : List Char → Option (List Char)) :
    List ConfigValue → List ConfigValue
  | [] => []
  | v :: rest => substitute_env_vars env v :: substitute_env_vars_list env rest

end

/-! Concrete fixtures for witnesses and counterexamples. -/

def config_empty : GLaDOSConfig :=
  { core := {}, inputs := {}, outputs := {}, tools := [] }

/-- Configuration giving the `terminal` input source an explicit
`outputs: [tts_glados]` routing list (spec section 6 shape). -/
def config_c1 : GLaDOSConfig :=
  { core := {}
    inputs := { terminal := some [("enabled", PyVal.b true),
                                  ("outputs", PyVal.ls ["tts_glados"])] }
    outputs := {}
    tools := [] }

def engine_c1 : GLaDOSReActEngine :=
  { config := config_c1
    input_modules := ["terminal"]
    output_modules := ["tts_glados", "terminal_output"] }

def engine_ex : GLaDOSReActEngine :=
  { config := config_empty
    input_modules := ["terminal", "web"]
    output_modules := ["tts_glados", "terminal_output"] }

def msg_terminal : GLaDOSMessage :=
  { content := "quelle heure est-il"
    message_type := MessageType.text
    source := "terminal"
    metadata := some [("channel", "42")] }

/-- Tool constructor fixture: `ir_osram` fails (wrong hardware
platform), every other tool constructs. -/
def create_tool_ex : String → PyDict → Except String String :=
  fun n _ => if n = "ir_osram" then Except.error "plateforme non supportee"
             else Except.ok n

def tools_cfg_ex : List (String × PyDict) :=
  [("tapo", [("enabled", PyVal.b true)]),
   ("ir_osram", [("enabled", PyVal.b true)]),
   ("weather", [("enabled", PyVal.b true)])]

def inputs_cfg_ex : InputConfig :=
  { wake_word := some [("enabled", PyVal.b true)]
    discord := some [("enabled", PyVal.b true)]
    terminal := some [("enabled", PyVal.b true)]
    web := some [("enabled", PyVal.b true)] }

/-- Input-module constructor fixture: `discord` fails, the rest
construct. -/
def create_input_ex : String → PyDict → Except String String :=
  fun n _ => if n = "discord" then Except.error "token invalide" else Except.ok n

def mod_init_ok : String → Except String Bool := fun _ => Except.ok true

def config_c5 : GLaDOSConfig :=
  { core := {}, inputs := inputs_cfg_ex, outputs := {}, tools := tools_cfg_ex }

def tapo_cfg_ex : TapoToolConfig :=
  { email := some "glados@aperture.sc"
    password := some "cake"
    devices := [("lampe_chambre",
      [("ip", PyVal.s "192.168.1.10"), ("type", PyVal.s "L530"),
       ("name", PyVal.s "Lampe chambre")])] }

/-- A second Tapo instance configured with a different device set. -/
def tapo_cfg_ex2 : TapoToolConfig :=
  { email := some "glados@aperture.sc"
    password := some "cake"
    devices := [("prise_salon",
      [("ip", PyVal.s "192.168.1.11"), ("type", PyVal.s "P110")])] }

def tapo_adapter_ex : TapoAdapter :=
  { email := "glados@aperture.sc"
    password := "cake"
    devices := tapo_cfg_ex.devices
    tool_name := "control_tapo_device" }

def tapo_mapping_ex : List (String × TapoDeviceType) :=
  [("lampe_chambre", TapoDeviceType.L530)]

def kw_on_lampe : TapoKwargs :=
  { action := some "on", device_name := some "lampe_chambre" }

/-- Scenario C shape: brightness out of the schema range 0-100. -/
def kw_brightness_150 : TapoKwargs :=
  { action := some "set_brightness", device_name := some "lampe_chambre",
    value := some 150 }

/-- A Tapo client in which every call raises an exception whose message
is `e` (the raise happens at the connect step, the first call of the
device path). -/
def raise_all (e : String) : TapoIOCall → Except String TapoIOResult :=
  fun _ => Except.error e

/-- A Tapo client in which connecting succeeds and every device action
raises an exception whose message is `e`. -/
def raise_after_connect (e : String) : TapoIOCall → Except String TapoIOResult :=
  fun c =>
    match c with
    | TapoIOCall.connect_p110 _ => Except.ok TapoIOResult.unit
    | TapoIOCall.connect_l530 _ => Except.ok TapoIOResult.unit
    | _ => Except.error e

/-- C6: for every registered pair `(key, ctor)`, `create key name config`
runs exactly `ctor name config` (hence returns the instance that `ctor`
constructs when construction succeeds); for every unregistered key,
`create` fails with an unknown-type error and constructs no instance;
and re-registering an existing key silently overwrites it (last
registration wins, with no error). Stated for both the input-module
factory and the tool-adapter factory, whose code is identical. -/
theorem factory_registry_correct {α : Type}
    (reg : String → Option (String → PyDict → Except String α))
    (key : String) (ctor : String → PyDict → Except String α)
    (name : String) (cfg : PyDict) :
    (reg key = some ctor →
      InputModuleFactory.create reg key name cfg = ctor name cfg ∧
      ToolAdapterFactory.create reg key name cfg = ctor name cfg) ∧
    (reg key = none →
      (∃ msg, InputModuleFactory.create reg key name cfg = Except.error msg) ∧
      (∃ msg, ToolAdapterFactory.create reg key name cfg = Except.error msg) ∧
      (∀ inst, InputModuleFactory.create reg key name cfg ≠ Except.ok inst) ∧
      (∀ inst, ToolAdapterFactory.create reg key name cfg ≠ Except.ok inst)) ∧
    (∀ c1 c2,
      InputModuleFactory.register (InputModuleFactory.register reg key c1) key c2 key
        = some c2 ∧
      ToolAdapterFactory.register (ToolAdapterFactory.register reg key c1) key c2 key
        = some c2) := by
  refine ⟨?_, ?_, ?_⟩
  · intro h
    constructor <;> simp [InputModuleFactory.create, ToolAdapterFactory.create, h]
  · intro h
    refine ⟨⟨"Type de module inconnu: " ++ key, ?_⟩, ⟨"Type inconnu: " ++ key, ?_⟩, ?_, ?_⟩ <;>
      simp [InputModuleFactory.create, ToolAdapterFactory.create, h]
  · intro c1 c2
    constructor <;> simp [InputModuleFactory.register, ToolAdapterFactory.register]

/-- C6 witness: the theorem instantiated at a concrete one-entry registry. -/
theorem factory_registry_correct_witness :
    ((fun k => if k = "terminal" then
        some (fun (n : String) (_ : PyDict) => (Except.ok n : Except String String)) else none)
      "terminal" = some (fun (n : String) (_ : PyDict) => (Except.ok n : Except String String))) ∧
    InputModuleFactory.create
      (fun k => if k = "terminal" then
        some (fun (n : String) (_ : PyDict) => (Except.ok n : Except String String)) else none)
      "terminal" "terminal" [] = Except.ok "terminal" := by
  have h := (factory_registry_correct
    (α := String)
    (fun k => if k = "terminal" then
      some (fun (n : String) (_ : PyDict) => (Except.ok n : Except String String)) else none)
    "terminal" (fun (n : String) (_ : PyDict) => (Except.ok n : Except String String))
    "terminal" []).1
  exact ⟨rfl, ((h rfl).1.trans rfl)⟩

/-- C1 counterexample: the engine ignores the configured per-source
`outputs` list.  With `inputs.terminal.outputs = [tts_glados]` non-empty
and both `tts_glados` and `terminal_output` active, the claim requires
delivery to exactly `tts_glados`; the code delivers to
`terminal_output` first and `tts_glados` second (its hardcoded branch
for the `terminal` source). -/
theorem response_routing_counterexample :
    configured_outputs config_c1 "terminal" = ["tts_glados"] ∧
    (["tts_glados"] : List String) ≠ [] ∧
    _send_response engine_c1 msg_terminal "terminal"
      = [Delivery.toOutput "terminal_output", Delivery.toOutput "tts_glados"] ∧
    _send_response engine_c1 msg_terminal "terminal"
      ≠ (["tts_glados"] : List String).map Delivery.toOutput := by
  refine ⟨by decide, by decide, by decide, by decide⟩

/-- C1 amended: response routing ignores the `outputs` configuration
entirely (it is invariant under any change of `engine.config`); the
reply is delivered to the hardcoded per-source preference list
(`wake_word` prefers tts then terminal, `terminal` prefers terminal
then tts, `web` uses terminal plus a direct web reply when the web
input module is active) filtered to the currently active output
modules — silently, with no warning mechanism for inactive names — and
when that filtered list is empty (including for `discord` and for every
unknown source) the reply is broadcast to every active output module. -/
theorem response_routing_amended (engine : GLaDOSReActEngine)
    (msg : GLaDOSMessage) (src : String) :
    (_send_response engine msg src =
      (if src = "web" then
        (if engine.input_modules.contains "web" then [Delivery.webReply msg.content] else [])
       else []) ++
      (let selected := (hardcoded_route src).filter
        (fun n => engine.output_modules.contains n)
       (if selected.isEmpty then engine.output_modules else selected).map
         Delivery.toOutput)) ∧
    (∀ cfg2, _send_response { engine with config := cfg2 } msg src
      = _send_response engine msg src) := by
  constructor
  · by_cases h1 : src = "wake_word"
    · subst h1
      by_cases h2 : "tts_glados" ∈ engine.output_modules <;>
        by_cases h3 : "terminal_output" ∈ engine.output_modules <;>
          simp [_send_response, hardcoded_route, h2, h3]
    · by_cases h4 : src = "terminal"
      · subst h4
        by_cases h2 : "tts_glados" ∈ engine.output_modules <;>
          by_cases h3 : "terminal_output" ∈ engine.output_modules <;>
            simp [_send_response, hardcoded_route, h2, h3]
      · by_cases h5 : src = "web"
        · subst h5
          by_cases h2 : "web" ∈ engine.input_modules <;>
            by_cases h3 : "terminal_output" ∈ engine.output_modules <;>
              simp [_send_response, hardcoded_route, h2, h3]
        · simp [_send_response, hardcoded_route, h1, h4, h5]
  · intro cfg2
    rfl

/-- C2 counterexample: when the reasoning agent raises, the reply routed
to the outputs has kind `text`, not `error`: `_process_with_agent`
catches the exception internally and returns the apology as an ordinary
response string, so the error-kind branch of `_handle_input_message`
is never reached on agent failure. -/
theorem reasoning_failure_counterexample :
    (fun (_ : String) => (Except.error "boom" : Except String String))
      msg_terminal.content = Except.error "boom" ∧
    (_handle_input_message engine_ex
      (fun (_ : String) => (Except.error "boom" : Except String String))
      msg_terminal).1.message_type = MessageType.text ∧
    (_handle_input_message engine_ex
      (fun (_ : String) => (Except.error "boom" : Except String String))
      msg_terminal).1.message_type ≠ MessageType.error := by
  refine ⟨rfl, by decide, by decide⟩

/-- C2 amended: if the reasoning agent raises on the query,
`_handle_input_message` completes normally (it is a total function of
the collaborator outcomes) and the output-routing path is invoked with
a reply message of kind `text` — not `error` — whose content is the
user-facing apology plus the error text, and whose metadata preserves
the original source and kind. -/
theorem reasoning_failure_contained (engine : GLaDOSReActEngine)
    (agent : String → Except String String) (msg : GLaDOSMessage) (e : String)
    (h : agent msg.content = Except.error e) :
    _handle_input_message engine agent msg =
      ({ content := "Je n\x27ai pas pu traiter votre demande: " ++ e
         message_type := MessageType.text
         source := "glados_engine"
         metadata := some [("original_source", msg.source),
                           ("original_type", msg.message_type.value)] },
       _send_response engine
         { content := "Je n\x27ai pas pu traiter votre demande: " ++ e
           message_type := MessageType.text
           source := "glados_engine"
           metadata := some [("original_source", msg.source),
                             ("original_type", msg.message_type.value)] }
         msg.source) ∧
    (_handle_input_message engine agent msg).1.message_type ≠ MessageType.error := by
  constructor
  · simp [_handle_input_message, _process_with_agent, h]
  · simp [_handle_input_message, _process_with_agent, h]

/-- C2 witness: the amended containment theorem applied to a concrete
failing agent and a concrete terminal message. -/
theorem reasoning_failure_contained_witness :
    ((fun (_ : String) => (Except.error "panne" : Except String String))
      msg_terminal.content = Except.error "panne") ∧
    (_handle_input_message engine_ex
      (fun (_ : String) => (Except.error "panne" : Except String String))
      msg_terminal).1.message_type ≠ MessageType.error :=
  ⟨rfl, (reasoning_failure_contained engine_ex
    (fun (_ : String) => (Except.error "panne" : Except String String))
    msg_terminal "panne" rfl).2⟩

/-- C3 counterexample: on agent success the reply is built with source
`"glados_engine"`, not the spec identifier `"engine"`, and the original
metadata mapping is dropped: the original message carried
`channel = 42`, but the reply metadata contains only `original_source`
and `original_type`. -/
theorem reply_construction_counterexample :
    msg_terminal.metadata = some [("channel", "42")] ∧
    (_handle_input_message engine_ex
      (fun (_ : String) => (Except.ok "il est midi" : Except String String))
      msg_terminal).1.source = "glados_engine" ∧
    (_handle_input_message engine_ex
      (fun (_ : String) => (Except.ok "il est midi" : Except String String))
      msg_terminal).1.source ≠ "engine" ∧
    (((_handle_input_message engine_ex
      (fun (_ : String) => (Except.ok "il est midi" : Except String String))
      msg_terminal).1.metadata.getD []).lookup "channel" = none) := by
  refine ⟨rfl, by decide, by decide, by decide⟩

/-- C3 amended: for every inbound message whose reasoning step succeeds
with response `r`, the reply message has kind `text`, source
`"glados_engine"` (the engine identifier in the code), and metadata
consisting of exactly the original source and original kind — the
original metadata mapping is not propagated. -/
theorem reply_construction_amended (engine : GLaDOSReActEngine)
    (agent : String → Except String String) (msg : GLaDOSMessage) (r : String)
    (h : agent msg.content = Except.ok r) :
    (_handle_input_message engine agent msg).1 =
      { content := r
        message_type := MessageType.text
        source := "glados_engine"
        metadata := some [("original_source", msg.source),
                          ("original_type", msg.message_type.value)] } := by
  simp [_handle_input_message, _process_with_agent, h]

/-- C3 witness: the amended reply-construction theorem applied to a
concrete succeeding agent and a concrete terminal message. -/
theorem reply_construction_amended_witness :
    ((fun (_ : String) => (Except.ok "ok" : Except String String))
      msg_terminal.content = Except.ok "ok") ∧
    (_handle_input_message engine_ex
      (fun (_ : String) => (Except.ok "ok" : Except String String))
      msg_terminal).1 =
      { content := "ok"
        message_type := MessageType.text
        source := "glados_engine"
        metadata := some [("original_source", "terminal"),
                          ("original_type", "text")] } :=
  ⟨rfl, reply_construction_amended engine_ex
    (fun (_ : String) => (Except.ok "ok" : Except String String))
    msg_terminal "ok" rfl⟩

/-- Helper: when every enabled entry constructs, the tools loop
registers exactly the enabled entries in order and logs no failure. -/
theorem init_tools_ok_spec {α : Type} (create : String → PyDict → Except String α)
    (l : List (String × PyDict))
    (hok : ∀ p ∈ l, get_bool p.2 "enabled" false = true →
      ∃ a, create p.1 p.2 = Except.ok a) :
    (init_tools create l).1.map Prod.fst
      = (l.filter (fun p => get_bool p.2 "enabled" false)).map Prod.fst ∧
    (init_tools create l).2 = [] := by
  induction l with
  | nil => simp [init_tools]
  | cons p rest ih =>
    rcases p with ⟨pn, pc⟩
    have hokr : ∀ q ∈ rest, get_bool q.2 "enabled" false = true →
        ∃ a, create q.1 q.2 = Except.ok a :=
      fun q hq => hok q (List.mem_cons_of_mem _ hq)
    by_cases hen : get_bool pc "enabled" false = true
    · obtain ⟨a, ha⟩ := hok (pn, pc) (List.mem_cons_self _ _) hen
      simp [init_tools, hen, ha, (ih hokr).1, (ih hokr).2, List.filter_cons]
    · rw [Bool.not_eq_true] at hen
      simp [init_tools, hen, (ih hokr).1, (ih hokr).2, List.filter_cons]

/-- Helper: one enabled tool entry fails, all other enabled entries
construct — the loop registers exactly the others and logs exactly the
single failure. -/
theorem init_tools_one_failure_spec {α : Type}
    (create : String → PyDict → Except String α)
    (pre post : List (String × PyDict)) (tname : String) (tcfg : PyDict)
    (e : String)
    (hen : get_bool tcfg "enabled" false = true)
    (hfail : create tname tcfg = Except.error e)
    (hok : ∀ p ∈ pre ++ post, get_bool p.2 "enabled" false = true →
      ∃ a, create p.1 p.2 = Except.ok a) :
    (init_tools create (pre ++ (tname, tcfg) :: post)).1.map Prod.fst
      = ((pre ++ post).filter (fun p => get_bool p.2 "enabled" false)).map Prod.fst ∧
    (init_tools create (pre ++ (tname, tcfg) :: post)).2 = [e] := by
  induction pre with
  | nil =>
    have hokp : ∀ p ∈ post, get_bool p.2 "enabled" false = true →
        ∃ a, create p.1 p.2 = Except.ok a := by simpa using hok
    have h := init_tools_ok_spec create post hokp
    simp [init_tools, hen, hfail, h.1, h.2]
  | cons p rest ih =>
    rcases p with ⟨pn, pc⟩
    have hokh := hok (pn, pc) (by simp)
    have hokr : ∀ q ∈ rest ++ post, get_bool q.2 "enabled" false = true →
        ∃ a, create q.1 q.2 = Except.ok a := by
      intro q hq
      exact hok q (by rw [List.cons_append]; exact List.mem_cons_of_mem _ hq)
    have ihr := ih hokr
    by_cases hpe : get_bool pc "enabled" false = true
    · obtain ⟨a, ha⟩ := hokh hpe
      simp [init_tools, hpe, ha, ihr.1, ihr.2, List.filter_cons]
    · rw [Bool.not_eq_true] at hpe
      simp [init_tools, hpe, ihr.1, ihr.2, List.filter_cons]

/-- Helper: when every enabled module entry constructs and initializes,
the module blocks register exactly the enabled entries in order. -/
theorem init_modules_ok_spec {β : Type}
    (create : String → PyDict → Except String β)
    (mod_init : β → Except String Bool) (l : List (String × PyDict × Bool))
    (hok : ∀ p ∈ l, module_entry_enabled p = true →
      ∃ m b, create p.1 p.2.1 = Except.ok m ∧ mod_init m = Except.ok b) :
    (init_module_entries create mod_init l).map Prod.fst
      = (l.filter module_entry_enabled).map Prod.fst := by
  induction l with
  | nil => simp [init_module_entries]
  | cons p rest ih =>
    rcases p with ⟨pn, pc, pd⟩
    have hokr : ∀ q ∈ rest, module_entry_enabled q = true →
        ∃ m b, create q.1 q.2.1 = Except.ok m ∧ mod_init m = Except.ok b :=
      fun q hq => hok q (List.mem_cons_of_mem _ hq)
    by_cases hen : module_entry_enabled (pn, pc, pd) = true
    · obtain ⟨m, b, hm, hb⟩ := hok (pn, pc, pd) (List.mem_cons_self _ _) hen
      simp [init_module_entries, hen, hm, hb, ih hokr, List.filter_cons]
    · rw [Bool.not_eq_true] at hen
      simp [init_module_entries, hen, ih hokr, List.filter_cons]

/-- Helper: one enabled module entry fails (constructor raise or
initialization raise), the others succeed — the blocks register
exactly the others. -/
theorem init_modules_one_failure_spec {β : Type}
    (create : String → PyDict → Except String β)
    (mod_init : β → Except String Bool)
    (pre post : List (String × PyDict × Bool))
    (ientry : String × PyDict × Bool) (e : String)
    (hen : module_entry_enabled ientry = true)
    (hfail : create ientry.1 ientry.2.1 = Except.error e ∨
      ∃ m, create ientry.1 ientry.2.1 = Except.ok m ∧ mod_init m = Except.error e)
    (hok : ∀ p ∈ pre ++ post, module_entry_enabled p = true →
      ∃ m b, create p.1 p.2.1 = Except.ok m ∧ mod_init m = Except.ok b) :
    (init_module_entries create mod_init (pre ++ ientry :: post)).map Prod.fst
      = ((pre ++ post).filter module_entry_enabled).map Prod.fst := by
  induction pre with
  | nil =>
    have hokp : ∀ p ∈ post, module_entry_enabled p = true →
        ∃ m b, create p.1 p.2.1 = Except.ok m ∧ mod_init m = Except.ok b := by
      simpa using hok
    have h := init_modules_ok_spec create mod_init post hokp
    rcases ientry with ⟨iname, icfg, idef⟩
    rcases hfail with hf | ⟨m, hm, hf⟩
    · simp [init_module_entries, hen, hf, h]
    · simp [init_module_entries, hen, hm, hf, h]
  | cons p rest ih =>
    rcases p with ⟨pn, pc, pd⟩
    have hokh := hok (pn, pc, pd) (by simp)
    have hokr : ∀ q ∈ rest ++ post, module_entry_enabled q = true →
        ∃ m b, create q.1 q.2.1 = Except.ok m ∧ mod_init m = Except.ok b := by
      intro q hq
      exact hok q (by rw [List.cons_append]; exact List.mem_cons_of_mem _ hq)
    have ihr := ih hokr
    by_cases hpe : module_entry_enabled (pn, pc, pd) = true
    · obtain ⟨m, b, hm, hb⟩ := hokh hpe
      simp [init_module_entries, hpe, hm, hb, ihr, List.filter_cons]
    · rw [Bool.not_eq_true] at hpe
      simp [init_module_entries, hpe, ihr, List.filter_cons]

/-- C5: best-effort bulk construction.  With N enabled tool entries of
which exactly one fails, the tools loop registers the other N−1 in
order, logs exactly one failure, excludes the failing entry from the
registered map and hence from the published tool catalog, and cannot
raise; likewise the input-module blocks with one failing entry
(constructor or initialization raise) register exactly the other
enabled entries; and `initialize()` still returns true in that
scenario (its success does not depend on per-entry outcomes). -/
theorem best_effort_bulk_construction {α β γ : Type}
    (create_tool : String → PyDict → Except String α)
    (pre post : List (String × PyDict)) (tname : String) (tcfg : PyDict)
    (e : String)
    (create_input : String → PyDict → Except String β)
    (input_init : β → Except String Bool)
    (ipre ipost : List (String × PyDict × Bool))
    (ientry : String × PyDict × Bool) (e2 : String)
    (inputs_config : InputConfig)
    (create_output : String → PyDict → Except String γ)
    (output_init : γ → Except String Bool)
    (llm_step agent_step : Except String Unit) (config : GLaDOSConfig)
    (hten : get_bool tcfg "enabled" false = true)
    (htfail : create_tool tname tcfg = Except.error e)
    (htok : ∀ p ∈ pre ++ post, get_bool p.2 "enabled" false = true →
      ∃ a, create_tool p.1 p.2 = Except.ok a)
    (htname : tname ∉ (pre ++ post).map Prod.fst)
    (hien : module_entry_enabled ientry = true)
    (hifail : create_input ientry.1 ientry.2.1 = Except.error e2 ∨
      ∃ m, create_input ientry.1 ientry.2.1 = Except.ok m ∧
        input_init m = Except.error e2)
    (hiok : ∀ p ∈ ipre ++ ipost, module_entry_enabled p = true →
      ∃ m b, create_input p.1 p.2.1 = Except.ok m ∧ input_init m = Except.ok b)
    (hsplit : input_entries inputs_config = ipre ++ ientry :: ipost)
    (hllm : llm_step = Except.ok ()) (hagent : agent_step = Except.ok ()) :
    ((init_tools create_tool (pre ++ (tname, tcfg) :: post)).1.map Prod.fst
      = ((pre ++ post).filter (fun p => get_bool p.2 "enabled" false)).map Prod.fst) ∧
    ((init_tools create_tool (pre ++ (tname, tcfg) :: post)).2 = [e]) ∧
    (tname ∉ tool_catalog (init_tools create_tool (pre ++ (tname, tcfg) :: post)).1) ∧
    ((init_input_modules create_input input_init inputs_config).map Prod.fst
      = ((ipre ++ ipost).filter module_entry_enabled).map Prod.fst) ∧
    (∃ tr ir om, engine_init llm_step create_tool agent_step create_input
      input_init create_output output_init config = Except.ok (true, tr, ir, om)) := by
  have ht := init_tools_one_failure_spec create_tool pre post tname tcfg e
    hten htfail htok
  have hi := init_modules_one_failure_spec create_input input_init ipre ipost
    ientry e2 hien hifail hiok
  refine ⟨ht.1, ht.2, ?_, ?_, ?_⟩
  · intro hmem
    unfold tool_catalog at hmem
    rw [ht.1] at hmem
    rcases List.mem_map.mp hmem with ⟨x, hx, hfx⟩
    exact htname (List.mem_map.mpr ⟨x, (List.mem_filter.mp hx).1, hfx⟩)
  · rw [init_input_modules, hsplit]
    exact hi
  · subst hllm
    subst hagent
    exact ⟨_, _, _, rfl⟩

/-- C5 witness: the bulk-construction theorem at a concrete
configuration: three enabled tools of which `ir_osram` fails, four
enabled input modules of which `discord` fails. -/
theorem best_effort_bulk_construction_witness :
    get_bool [("enabled", PyVal.b true)] "enabled" false = true ∧
    (init_tools create_tool_ex tools_cfg_ex).1.map Prod.fst = ["tapo", "weather"] ∧
    (init_tools create_tool_ex tools_cfg_ex).2 = ["plateforme non supportee"] ∧
    ("ir_osram" ∉ tool_catalog (init_tools create_tool_ex tools_cfg_ex).1) ∧
    (init_input_modules create_input_ex mod_init_ok inputs_cfg_ex).map Prod.fst
      = ["wake_word", "terminal", "web"] ∧
    (∃ tr ir om, engine_init (Except.ok ()) create_tool_ex (Except.ok ())
      create_input_ex mod_init_ok create_input_ex mod_init_ok config_c5
      = Except.ok (true, tr, ir, om)) := by
  have h := best_effort_bulk_construction
    (α := String) (β := String) (γ := String)
    create_tool_ex
    [("tapo", [("enabled", PyVal.b true)])]
    [("weather", [("enabled", PyVal.b true)])]
    "ir_osram" [("enabled", PyVal.b true)] "plateforme non supportee"
    create_input_ex mod_init_ok
    [("wake_word", [("enabled", PyVal.b true)], false)]
    [("terminal", [("enabled", PyVal.b true)], true),
     ("web", [("enabled", PyVal.b true)], false)]
    ("discord", [("enabled", PyVal.b true)], false) "token invalide"
    inputs_cfg_ex
    create_input_ex mod_init_ok
    (Except.ok ()) (Except.ok ()) config_c5
    (by decide) rfl
    (by
      intro p hp hen
      simp only [List.cons_append, List.nil_append, List.mem_cons,
        List.not_mem_nil, or_false] at hp
      rcases hp with rfl | rfl
      · exact ⟨"tapo", rfl⟩
      · exact ⟨"weather", rfl⟩)
    (by decide)
    (by decide)
    (Or.inl rfl)
    (by
      intro p hp hen
      simp only [List.cons_append, List.nil_append, List.mem_cons,
        List.not_mem_nil, or_false] at hp
      rcases hp with rfl | rfl | rfl
      · exact ⟨"wake_word", true, rfl, rfl⟩
      · exact ⟨"terminal", true, rfl, rfl⟩
      · exact ⟨"web", true, rfl, rfl⟩)
    (by decide)
    rfl rfl
  refine ⟨by decide, h.1.trans (by decide), h.2.1, h.2.2.1, h.2.2.2.1.trans (by decide),
    h.2.2.2.2⟩

/-- C9: `GLaDOSReActEngine.initialize` is total over exceptions: for
every configuration and every outcome of its four steps — including a
raise from the LLM-backend construction or from the reasoning-agent
construction — it returns normally (`Except.ok`), with `true` exactly
when no step raised (the tool and module bulk steps cannot raise at
all, their per-entry failures being caught internally). -/
theorem engine_init_total {α β γ : Type}
    (llm_step : Except String Unit)
    (create_tool : String → PyDict → Except String α)
    (agent_step : Except String Unit)
    (create_input : String → PyDict → Except String β)
    (input_init : β → Except String Bool)
    (create_output : String → PyDict → Except String γ)
    (output_init : γ → Except String Bool)
    (config : GLaDOSConfig) :
    ∃ r, engine_init llm_step create_tool agent_step create_input input_init
      create_output output_init config = Except.ok r ∧
      (r.1 = true ↔ except_is_ok llm_step = true ∧ except_is_ok agent_step = true) := by
  cases llm_step with
  | error e => exact ⟨_, rfl, by simp [except_is_ok]⟩
  | ok u =>
    cases agent_step with
    | error e => exact ⟨_, rfl, by simp [except_is_ok]⟩
    | ok v => exact ⟨_, rfl, by simp [engine_init, except_is_ok]⟩

/-- C8: idempotent lifecycle.  Starting an engine that is not running
starts each input module once; a second `start()` only warns and
changes nothing.  Stopping a non-running engine is a no-op.  Calling
`TerminalInput.cleanup` twice never raises, and the second call — with
the listening task already cancelled or absent — changes nothing. -/
theorem idempotent_lifecycle (engine : GLaDOSReActEngine) (t : TerminalInput)
    (h : engine.is_running = false) :
    ((engine_start engine).2
      = engine.input_modules.map EngineEffect.startedListening) ∧
    (engine_start (engine_start engine).1
      = ((engine_start engine).1, [EngineEffect.warnedAlreadyRunning])) ∧
    (engine_stop engine = (engine, [])) ∧
    (∀ t1, TerminalInput.cleanup t = Except.ok t1 →
      TerminalInput.cleanup t1 = Except.ok t1) ∧
    (∃ t1 t2, TerminalInput.cleanup t = Except.ok t1 ∧
      TerminalInput.cleanup t1 = Except.ok t2) := by
  refine ⟨?_, ?_, ?_, ?_, ?_⟩
  · simp [engine_start, h]
  · simp [engine_start, h]
  · simp [engine_stop, h]
  · intro t1 h1
    have ht1 : t1 = TerminalInput.stop_listening t := by
      simpa [TerminalInput.cleanup] using h1.symm
    subst ht1
    cases ht : t.listening_task with
    | none => simp [TerminalInput.cleanup, TerminalInput.stop_listening, ht]
    | some ts => cases ts <;>
        simp [TerminalInput.cleanup, TerminalInput.stop_listening, ht]
  · exact ⟨_, _, rfl, rfl⟩

/-- C8 witness: the lifecycle theorem at a concrete stopped engine and
a terminal input with a live listening task. -/
theorem idempotent_lifecycle_witness :
    engine_ex.is_running = false ∧
    engine_stop engine_ex = (engine_ex, []) ∧
    engine_start (engine_start engine_ex).1
      = ((engine_start engine_ex).1, [EngineEffect.warnedAlreadyRunning]) :=
  ⟨rfl,
   (idempotent_lifecycle engine_ex
     { is_active := true, listening_task := some TaskState.running } rfl).2.2.1,
   (idempotent_lifecycle engine_ex
     { is_active := true, listening_task := some TaskState.running } rfl).2.1⟩

/-- Helper: a string of non-zero length is not the empty string. -/
theorem str_ne_empty_of_len (a : String) (h : a.length ≠ 0) : a ≠ "" :=
  fun hc => h (by rw [hc]; rfl)

/-- Helper: appending on the right preserves non-zero length. -/
theorem append_len_ne (a b : String) (h : a.length ≠ 0) : (a ++ b).length ≠ 0 := by
  rw [String.length_append]
  omega

/-- Helper: `lit ++ v ++ lit2` is non-empty when `lit` is. -/
theorem lit_append2_ne_empty (a b c : String) (h : a.length ≠ 0) :
    a ++ b ++ c ≠ "" :=
  str_ne_empty_of_len _ (append_len_ne _ _ (append_len_ne _ _ h))

/-- Helper: `lit ++ v ++ lit2 ++ w` is non-empty when `lit` is. -/
theorem lit_append3_ne_empty (a b c d : String) (h : a.length ≠ 0) :
    a ++ b ++ c ++ d ≠ "" :=
  str_ne_empty_of_len _ (append_len_ne _ _ (append_len_ne _ _ (append_len_ne _ _ h)))

/-- Helper: every `validate_device_exists` failure message is
non-empty. -/
theorem validate_device_exists_err_ne
    (mapping : List (String × TapoDeviceType)) (d e : String)
    (h : validate_device_exists mapping d = Except.error e) : e ≠ "" := by
  unfold validate_device_exists at h
  repeat' split at h
  all_goals first
    | exact Except.noConfusion h
    | (simp only [Except.error.injEq] at h
       subst h
       exact lit_append3_ne_empty _ _ _ _ (by decide))

/-- Helper: every base-model validation failure message is non-empty. -/
theorem validate_tapo_base_err_ne
    (mapping : List (String × TapoDeviceType)) (kw : TapoKwargs) (e : String)
    (h : validate_tapo_base mapping kw = Except.error e) : e ≠ "" := by
  unfold validate_tapo_base at h
  repeat' split at h
  all_goals first
    | exact Except.noConfusion h
    | (simp only [Except.error.injEq] at h
       subst h
       first
         | decide
         | solve_by_elim [validate_device_exists_err_ne])

/-- Helper: every `supports` validation failure message is non-empty. -/
theorem validate_device_supports_err_ne
    (mapping : List (String × TapoDeviceType)) (d action e : String)
    (h : validate_device_supports mapping d action = Except.error e) : e ≠ "" := by
  unfold validate_device_supports at h
  repeat' split at h
  all_goals first
    | exact Except.noConfusion h
    | (simp only [Except.error.injEq] at h
       subst h
       exact lit_append3_ne_empty _ _ _ _ (by decide))

/-- Helper: every parameter-validation failure message of the Tapo
adapter is non-empty. -/
theorem validate_tapo_params_err_ne
    (mapping : List (String × TapoDeviceType)) (kw : TapoKwargs) (e : String)
    (h : validate_tapo_params mapping kw = Except.error e) : e ≠ "" := by
  unfold validate_tapo_params at h
  repeat' split at h
  all_goals first
    | exact Except.noConfusion h
    | (simp only [Except.error.injEq] at h
       subst h
       first
         | decide
         | exact lit_append2_ne_empty _ _ _ (by decide)
         | exact lit_append3_ne_empty _ _ _ _ (by decide)
         | solve_by_elim [validate_tapo_base_err_ne,
             validate_device_supports_err_ne, validate_device_exists_err_ne])

/-- Helper: `_execute_action` always reports either success or an
error string. -/
theorem tapo_execute_action_cases
    (tapo_io : TapoIOCall → Except String TapoIOResult)
    (params : TapoValidated) (device_type : String) :
    (tapo_execute_action tapo_io params device_type).success = true ∨
    ∃ msg, (tapo_execute_action tapo_io params device_type).error = some msg := by
  unfold tapo_execute_action
  repeat' split
  all_goals first
    | (simp; done)
    | (simp only []
       split_ifs <;> simp)

/-- Helper: `execute` always reports either success or an error
string. -/
theorem tapo_execute_cases (adapter : TapoAdapter)
    (mapping : List (String × TapoDeviceType))
    (tapo_io : TapoIOCall → Except String TapoIOResult) (kw : TapoKwargs) :
    (TapoAdapter.execute adapter mapping tapo_io kw).success = true ∨
    ∃ msg, (TapoAdapter.execute adapter mapping tapo_io kw).error = some msg := by
  unfold TapoAdapter.execute
  repeat' split
  all_goals first
    | (simp; done)
    | exact tapo_execute_action_cases tapo_io _ _

/-- C4 counterexample: with a schema-valid call whose underlying device
action raises an exception carrying an empty message, `execute` returns
`success False` with an empty `error` string, refuting the non-empty
requirement of the claim for arbitrary exceptions. -/
theorem tool_failure_counterexample :
    (TapoAdapter.execute tapo_adapter_ex tapo_mapping_ex
      (fun _ => Except.error "") kw_on_lampe).success = false ∧
    (TapoAdapter.execute tapo_adapter_ex tapo_mapping_ex
      (fun _ => Except.error "") kw_on_lampe).error = some "" ∧
    ¬ ∃ msg, (TapoAdapter.execute tapo_adapter_ex tapo_mapping_ex
      (fun _ => Except.error "") kw_on_lampe).error = some msg ∧ msg ≠ "" := by
  refine ⟨by decide, by decide, ?_⟩
  rintro ⟨msg, hm, hmsg⟩
  have h : (TapoAdapter.execute tapo_adapter_ex tapo_mapping_ex
      (fun _ => Except.error "") kw_on_lampe).error = some "" := by decide
  rw [h] at hm
  exact hmsg (Option.some.inj hm).symm

/-- Helper: when every device call of the client raises with message
`e`, the inner action handler reports `success False` with exactly that
message, for each of the plain device actions. -/
theorem tapo_execute_action_raises
    (io : TapoIOCall → Except String TapoIOResult) (e : String)
    (params : TapoValidated) (device_type : String)
    (hon : io TapoIOCall.dev_on = Except.error e)
    (hoff : io TapoIOCall.dev_off = Except.error e)
    (hinfo : io TapoIOCall.get_device_info = Except.error e)
    (hact : params.action = "on" ∨ params.action = "off" ∨
      params.action = "toggle" ∨ params.action = "get_info") :
    tapo_execute_action io params device_type
      = { success := false, error := some e } := by
  unfold tapo_execute_action
  rcases hact with h | h | h | h
  · rw [if_pos h, hon]
  · have h1 : ¬ params.action = "on" := by rw [h]; decide
    rw [if_neg h1, if_pos h, hoff]
  · have h1 : ¬ params.action = "on" := by rw [h]; decide
    have h2 : ¬ params.action = "off" := by rw [h]; decide
    rw [if_neg h1, if_neg h2, if_pos h, hinfo]
  · have h1 : ¬ params.action = "on" := by rw [h]; decide
    have h2 : ¬ params.action = "off" := by rw [h]; decide
    have h3 : ¬ params.action = "toggle" := by rw [h]; decide
    have h4 : ¬ (params.action = "set_brightness" ∧
        py_upper device_type = "L530") := by
      rw [h]; simp
    have h5 : ¬ (params.action = "set_color" ∧
        py_upper device_type = "L530") := by
      rw [h]; simp
    rw [if_neg h1, if_neg h2, if_neg h3, if_neg h4, if_neg h5, if_pos h, hinfo]

/-- C4 amended: `execute` never raises (it is total in every
collaborator outcome); on schema-validation failure it returns
`success False` with a non-empty error message; when the underlying
action raises an exception with message `e` — at the connect step
(`raise_all`) or during the device action proper
(`raise_after_connect`) — `execute` returns `success False` with the
error string equal to that exception message, empty exactly when the
message is empty; and on every failure whatsoever the result carries
an error string. -/
theorem tool_failure_contained (adapter : TapoAdapter)
    (mapping : List (String × TapoDeviceType))
    (tapo_io : TapoIOCall → Except String TapoIOResult) (kw : TapoKwargs) :
    (∀ e, validate_tapo_params mapping kw = Except.error e →
      TapoAdapter.execute adapter mapping tapo_io kw
        = { success := false, error := some e } ∧ e ≠ "") ∧
    (∀ e params device_type,
      (params.action = "on" ∨ params.action = "off" ∨
        params.action = "toggle" ∨ params.action = "get_info") →
      tapo_execute_action (raise_all e) params device_type
        = { success := false, error := some e }) ∧
    (∀ e params device_config ip ty,
      validate_tapo_params mapping kw = Except.ok params →
      ¬ params.device_name = "" →
      adapter.devices.lookup params.device_name = some device_config →
      get_str device_config "ip" = some ip →
      get_str device_config "type" = some ty →
      (py_upper ty = "P110" ∨ py_upper ty = "L530") →
      (TapoAdapter.execute adapter mapping (raise_all e) kw
        = { success := false, error := some e }) ∧
      ((params.action = "on" ∨ params.action = "off" ∨
        params.action = "toggle" ∨ params.action = "get_info") →
       TapoAdapter.execute adapter mapping (raise_after_connect e) kw
        = { success := false, error := some e,
            device_name :=
              some ((get_str device_config "name").getD params.device_name),
            device_type := some ty })) ∧
    ((TapoAdapter.execute adapter mapping tapo_io kw).success = false →
      ∃ msg, (TapoAdapter.execute adapter mapping tapo_io kw).error = some msg) := by
  refine ⟨?_, ?_, ?_, ?_⟩
  · intro e he
    refine ⟨?_, validate_tapo_params_err_ne mapping kw e he⟩
    unfold TapoAdapter.execute
    rw [he]
  · intro e params device_type hact
    exact tapo_execute_action_raises (raise_all e) e params device_type
      rfl rfl rfl hact
  · intro e params device_config ip ty hv hne hlook hip hty hcase
    have hbase := tapo_execute_action_raises (raise_after_connect e) e params ty
      rfl rfl rfl
    constructor
    · unfold TapoAdapter.execute
      simp only [hv, hlook, hip, hty]
      rw [if_neg hne]
      rcases hcase with h | h
      · rw [if_pos h]
        rfl
      · have hnp : ¬ py_upper ty = "P110" := by rw [h]; decide
        rw [if_neg hnp, if_pos h]
        rfl
    · intro hact
      unfold TapoAdapter.execute
      simp only [hv, hlook, hip, hty]
      rw [if_neg hne]
      rcases hcase with h | h
      · rw [if_pos h]
        rw [show tapo_execute_action (raise_after_connect e) params ty
          = { success := false, error := some e } from hbase hact]
        rfl
      · have hnp : ¬ py_upper ty = "P110" := by rw [h]; decide
        rw [if_neg hnp, if_pos h]
        rw [show tapo_execute_action (raise_after_connect e) params ty
          = { success := false, error := some e } from hbase hact]
        rfl
  · intro hfail
    rcases tapo_execute_cases adapter mapping tapo_io kw with hs | he
    · rw [hfail] at hs
      exact absurd hs (by decide)
    · exact he

/-- C4 witness: the containment theorem at concrete inputs — the
Scenario C validation failure (brightness 150 where the schema maximum
is 100), a client raising at connect, and a client raising during the
device action. -/
theorem tool_failure_contained_witness :
    validate_tapo_params tapo_mapping_ex kw_brightness_150
      = Except.error "value: Input should be between 0 and 100" ∧
    TapoAdapter.execute tapo_adapter_ex tapo_mapping_ex
      (fun _ => Except.ok TapoIOResult.unit) kw_brightness_150
      = { success := false,
          error := some "value: Input should be between 0 and 100" } ∧
    ("value: Input should be between 0 and 100" : String) ≠ "" ∧
    tapo_execute_action (raise_all "panne reseau")
      { device_name := "lampe_chambre", action := "on" } "L530"
      = { success := false, error := some "panne reseau" } ∧
    TapoAdapter.execute tapo_adapter_ex tapo_mapping_ex
      (raise_all "panne reseau") kw_on_lampe
      = { success := false, error := some "panne reseau" } ∧
    TapoAdapter.execute tapo_adapter_ex tapo_mapping_ex
      (raise_after_connect "panne reseau") kw_on_lampe
      = { success := false, error := some "panne reseau",
          device_name := some "Lampe chambre", device_type := some "L530" } := by
  have h := tool_failure_contained tapo_adapter_ex tapo_mapping_ex
    (fun _ => Except.ok TapoIOResult.unit) kw_brightness_150
  have h1 := h.1 "value: Input should be between 0 and 100" rfl
  have h2 := (tool_failure_contained tapo_adapter_ex tapo_mapping_ex
    (fun _ => Except.ok TapoIOResult.unit) kw_on_lampe).2.1 "panne reseau"
    { device_name := "lampe_chambre", action := "on" } "L530" (Or.inl rfl)
  have h3 := (tool_failure_contained tapo_adapter_ex tapo_mapping_ex
    (fun _ => Except.ok TapoIOResult.unit) kw_on_lampe).2.2.1 "panne reseau"
    { device_name := "lampe_chambre", action := "on" }
    [("ip", PyVal.s "192.168.1.10"), ("type", PyVal.s "L530"),
     ("name", PyVal.s "Lampe chambre")]
    "192.168.1.10" "L530" rfl (by decide) rfl rfl rfl (Or.inr rfl)
  exact ⟨rfl, h1.1, h1.2, h2, h3.1, h3.2 (Or.inl rfl)⟩

/-- Helper: the repopulated device mapping does not depend on the
previous global mapping (the `clear()`). -/
theorem update_mapping_ignores_prev (ds : List (String × PyDict))
    (g g' : List (String × TapoDeviceType)) :
    _update_device_type_mapping ds g = _update_device_type_mapping ds g' := by
  induction ds with
  | nil => rfl
  | cons p rest ih =>
    rcases p with ⟨id, cfg⟩
    unfold _update_device_type_mapping
    cases h : tapo_device_type_of_string (py_upper ((get_str cfg "type").getD "")) <;>
      simp [h, ih]

/-- Helper: a name is in the repopulated mapping exactly when this
instance's configuration has a device of that name with a recognized
type. -/
theorem update_mapping_mem_iff (ds : List (String × PyDict))
    (g : List (String × TapoDeviceType)) (n : String) :
    n ∈ (_update_device_type_mapping ds g).map Prod.fst ↔
      ∃ c ∈ ds, c.1 = n ∧
        tapo_device_type_of_string (py_upper ((get_str c.2 "type").getD "")) ≠ none := by
  induction ds with
  | nil => simp [_update_device_type_mapping]
  | cons p rest ih =>
    rcases p with ⟨id, cfg⟩
    unfold _update_device_type_mapping
    cases h : tapo_device_type_of_string (py_upper ((get_str cfg "type").getD "")) with
    | some ty => simp [h, ih, eq_comm]
    | none => simp [h, ih, eq_comm]

/-- Helper: association-list lookup succeeds exactly on the keys. -/
theorem lookup_isSome_iff_mem {β : Type} (l : List (String × β)) (k : String) :
    (l.lookup k).isSome = true ↔ k ∈ l.map Prod.fst := by
  induction l with
  | nil => simp
  | cons p rest ih =>
    rcases p with ⟨a, b⟩
    by_cases h : k = a
    · subst h
      simp [List.lookup]
    · have hb : (k == a) = false := by
        simp [h]
      simp [List.lookup, hb, ih]
      exact fun hc => absurd hc h

/-- Helper: `validate_device_exists` accepts exactly the keys of the
global mapping. -/
theorem validate_device_exists_ok_iff
    (g : List (String × TapoDeviceType)) (n : String) :
    validate_device_exists g n = Except.ok () ↔ n ∈ g.map Prod.fst := by
  unfold validate_device_exists
  cases h : g.lookup n with
  | some ty =>
    constructor
    · intro _
      exact (lookup_isSome_iff_mem g n).mp (by simp [h])
    · intro _
      rfl
  | none =>
    constructor
    · intro hc
      exact Except.noConfusion hc
    · intro hm
      have hs := (lookup_isSome_iff_mem g n).mpr hm
      rw [h] at hs
      exact absurd hs (by decide)

/-- Helper: successful adapter construction leaves the global mapping
repopulated from this instance's devices. -/
theorem tapo_construct_mapping (config : TapoToolConfig)
    (env_e env_p : Option String) (g : List (String × TapoDeviceType))
    (a : TapoAdapter) (g1 : List (String × TapoDeviceType))
    (h : TapoAdapter.construct config env_e env_p g = Except.ok (a, g1)) :
    g1 = _update_device_type_mapping config.devices g := by
  unfold TapoAdapter.construct at h
  repeat' split at h
  all_goals first
    | exact Except.noConfusion h
    | (simp only [Except.ok.injEq, Prod.mk.injEq] at h
       exact h.2.symm)

/-- C10: constructing a `TapoAdapter` clears and repopulates the
module-global `DEVICE_TYPE_MAPPING` with exactly the devices of that
instance's configuration that carry a recognized type (independently of
the previous mapping contents); consequently, after a second adapter is
constructed with a different device set, `validate_device_exists`
accepts a device of the first instance only between the two
constructions and rejects it afterwards — only the most recently
constructed adapter's devices validate. -/
theorem tapo_device_mapping_interference
    (cfg1 cfg2 : TapoToolConfig) (env_email env_password : Option String)
    (g0 g0' g1 g2 : List (String × TapoDeviceType)) (a1 a2 : TapoAdapter)
    (name : String)
    (h1 : TapoAdapter.construct cfg1 env_email env_password g0
      = Except.ok (a1, g1))
    (h2 : TapoAdapter.construct cfg2 env_email env_password g1
      = Except.ok (a2, g2))
    (hname1 : name ∈ g1.map Prod.fst)
    (hname2 : ∀ c ∈ cfg2.devices, c.1 ≠ name) :
    (∀ ds : List (String × PyDict),
      _update_device_type_mapping ds g0 = _update_device_type_mapping ds g0') ∧
    g1 = _update_device_type_mapping cfg1.devices g0 ∧
    g2 = _update_device_type_mapping cfg2.devices g1 ∧
    (∀ n, n ∈ g2.map Prod.fst ↔
      ∃ c ∈ cfg2.devices, c.1 = n ∧
        tapo_device_type_of_string (py_upper ((get_str c.2 "type").getD "")) ≠ none) ∧
    validate_device_exists g1 name = Except.ok () ∧
    (∃ msg, validate_device_exists g2 name = Except.error msg) := by
  have hg1 := tapo_construct_mapping cfg1 env_email env_password g0 a1 g1 h1
  have hg2 := tapo_construct_mapping cfg2 env_email env_password g1 a2 g2 h2
  have hmem : ∀ n, n ∈ g2.map Prod.fst ↔
      ∃ c ∈ cfg2.devices, c.1 = n ∧
        tapo_device_type_of_string (py_upper ((get_str c.2 "type").getD "")) ≠ none := by
    intro n
    rw [hg2]
    exact update_mapping_mem_iff cfg2.devices g1 n
  refine ⟨fun ds => update_mapping_ignores_prev ds g0 g0', hg1, hg2, hmem, ?_, ?_⟩
  · exact (validate_device_exists_ok_iff g1 name).mpr hname1
  · have hnot : name ∉ g2.map Prod.fst := by
      intro hm
      rcases (hmem name).mp hm with ⟨c, hc, hcn, _⟩
      exact hname2 c hc hcn
    unfold validate_device_exists
    cases h : g2.lookup name with
    | some ty =>
      exact absurd ((lookup_isSome_iff_mem g2 name).mp (by simp [h])) hnot
    | none => exact ⟨_, rfl⟩

/-- C10 witness: two concrete adapters constructed in sequence; the
first instance's lamp validates between the constructions and is
rejected after the second construction. -/
theorem tapo_device_mapping_interference_witness :
    TapoAdapter.construct tapo_cfg_ex none none []
      = Except.ok (tapo_adapter_ex, [("lampe_chambre", TapoDeviceType.L530)]) ∧
    validate_device_exists [("lampe_chambre", TapoDeviceType.L530)] "lampe_chambre"
      = Except.ok () ∧
    (∃ msg, validate_device_exists [("prise_salon", TapoDeviceType.P110)]
      "lampe_chambre" = Except.error msg) := by
  have h := tapo_device_mapping_interference tapo_cfg_ex tapo_cfg_ex2 none none
    [] [] [("lampe_chambre", TapoDeviceType.L530)]
    [("prise_salon", TapoDeviceType.P110)]
    tapo_adapter_ex
    { email := "glados@aperture.sc", password := "cake",
      devices := tapo_cfg_ex2.devices, tool_name := "control_tapo_device" }
    "lampe_chambre" rfl rfl (by decide) (by decide)
  exact ⟨rfl, h.2.2.2.2.1, h.2.2.2.2.2⟩

/-- Helper: splitting a brace-free prefix followed by a closing brace
recovers exactly that prefix and the tail after the brace. -/
theorem braceSplit_append (v rest : List Char) (hv : '}' ∉ v) :
    (braceSplit (v ++ '}' :: rest)).map Subtype.val = some (v, rest) := by
  induction v with
  | nil => simp [braceSplit]
  | cons c cs ih =>
    have hc : c ≠ '}' := fun h => hv (h ▸ List.mem_cons_self _ _)
    have hcs : '}' ∉ cs := fun h => hv (List.mem_cons_of_mem _ h)
    have ih2 := ih hcs
    rw [List.cons_append]
    unfold braceSplit
    rw [if_neg hc]
    cases hb : braceSplit (cs ++ '}' :: rest) with
    | none => rw [hb] at ih2; exact Option.noConfusion ih2
    | some q =>
      obtain ⟨⟨content, after⟩, hlt⟩ := q
      rw [hb] at ih2
      simp only [Option.map_some', Option.some.injEq, Prod.mk.injEq] at ih2
      simp [hb, ih2.1, ih2.2]

/-- Helper: the scan copies any non-dollar character and continues. -/
theorem subst_cons_ne (env : List Char → Option (List Char)) (c : Char)
    (rest : List Char) (hc : c ≠ '$') :
    substitute_env_vars_chars env (c :: rest)
      = c :: substitute_env_vars_chars env rest := by
  conv_lhs => rw [substitute_env_vars_chars.eq_def]
  simp [hc]

/-- Helper: a matched placeholder at the head of the string is replaced
(set variable) or kept literally (unset variable), and scanning resumes
after it. -/
theorem subst_head_match (env : List Char → Option (List Char))
    (v rest : List Char) (hv : v ≠ []) (hbrace : '}' ∉ v) :
    substitute_env_vars_chars env ('$' :: '{' :: (v ++ '}' :: rest))
      = (match env v with
         | some val => val
         | none => '$' :: '{' :: (v ++ ['}'])) ++
        substitute_env_vars_chars env rest := by
  have hq := braceSplit_append v rest hbrace
  cases hb : braceSplit (v ++ '}' :: rest) with
  | none => rw [hb] at hq; exact Option.noConfusion hq
  | some q =>
    obtain ⟨⟨content, after⟩, hlt⟩ := q
    rw [hb] at hq
    simp only [Option.map_some', Option.some.injEq, Prod.mk.injEq] at hq
    obtain ⟨h1, h2⟩ := hq
    subst h1
    subst h2
    conv_lhs => rw [substitute_env_vars_chars.eq_def]
    simp only [hb]
    simp [hv]

/-- Helper: the dict recursion substitutes in every value and leaves
keys unchanged. -/
theorem substitute_env_vars_dict_eq (env : List Char → Option (List Char))
    (entries : List (List Char × ConfigValue)) :
    substitute_env_vars_dict env entries
      = entries.map (fun kv => (kv.1, substitute_env_vars env kv.2)) := by
  induction entries with
  | nil => rfl
  | cons kv rest ih =>
    rcases kv with ⟨k, v⟩
    simp [substitute_env_vars_dict, ih]

/-- Helper: the list recursion substitutes in every element. -/
theorem substitute_env_vars_list_eq (env : List Char → Option (List Char))
    (xs : List ConfigValue) :
    substitute_env_vars_list env xs = xs.map (substitute_env_vars env) := by
  induction xs with
  | nil => rfl
  | cons v rest ih => simp [substitute_env_vars_list, ih]

/-- C7: environment-variable substitution.  In every string value, each
dollar-brace placeholder occurrence around a non-empty brace-free
variable name (here: an occurrence whose preceding text contains no
dollar sign) is replaced by the value of that environment variable when
it is set, and left as the literal placeholder text when it is not; the
substitution recurses through dict values and list elements and leaves
every non-string value unchanged. -/
theorem env_substitution (env : List Char → Option (List Char)) :
    (∀ p v rest, '$' ∉ p → v ≠ [] → '}' ∉ v →
      substitute_env_vars_chars env (p ++ '$' :: '{' :: (v ++ '}' :: rest))
        = p ++ (match env v with
                | some val => val
                | none => '$' :: '{' :: (v ++ ['}'])) ++
            substitute_env_vars_chars env rest) ∧
    (∀ s, substitute_env_vars env (ConfigValue.str s)
      = ConfigValue.str (substitute_env_vars_chars env s)) ∧
    (∀ entries, substitute_env_vars env (ConfigValue.dict entries)
      = ConfigValue.dict
          (entries.map (fun kv => (kv.1, substitute_env_vars env kv.2)))) ∧
    (∀ xs, substitute_env_vars env (ConfigValue.list xs)
      = ConfigValue.list (xs.map (substitute_env_vars env))) ∧
    (∀ n : Int, substitute_env_vars env (ConfigValue.int n)
      = ConfigValue.int n) ∧
    (∀ b, substitute_env_vars env (ConfigValue.boolean b)
      = ConfigValue.boolean b) ∧
    substitute_env_vars env ConfigValue.null = ConfigValue.null := by
  refine ⟨?_, ?_, ?_, ?_, ?_, ?_, rfl⟩
  · intro p v rest hp hv hbrace
    induction p with
    | nil =>
      rw [List.nil_append, List.nil_append]
      exact subst_head_match env v rest hv hbrace
    | cons c cs ih =>
      have hc : c ≠ '$' := fun h => hp (h ▸ List.mem_cons_self _ _)
      have hcs : '$' ∉ cs := fun h => hp (List.mem_cons_of_mem _ h)
      rw [List.cons_append, subst_cons_ne env c _ hc, ih hcs]
      simp
  · intro s; rfl
  · intro entries
    simp [substitute_env_vars, substitute_env_vars_dict_eq]
  · intro xs
    simp [substitute_env_vars, substitute_env_vars_list_eq]
  · intro n; rfl
  · intro b; rfl

/-- C7 witness: the substitution theorem at a concrete environment and
string: a set variable is replaced, and (directly evaluated) an unset
variable stays as the literal placeholder while non-string values pass
through unchanged. -/
theorem env_substitution_witness :
    ('$' ∉ ("key: ").data) ∧
    substitute_env_vars_chars
      (fun v => if v = ("HOME").data then some ("/root").data else none)
      (("key: ").data ++ '$' :: '{' :: (("HOME").data ++ '}' :: ("/x").data))
      = ("key: ").data ++ ("/root").data ++
        substitute_env_vars_chars
          (fun v => if v = ("HOME").data then some ("/root").data else none)
          (("/x").data) ∧
    substitute_env_vars_chars
      (fun v => if v = ("HOME").data then some ("/root").data else none)
      (("a: ").data ++ '$' :: '{' :: (("MISSING").data ++ '}' :: []))
      = ("a: ").data ++ '$' :: '{' :: (("MISSING").data ++ ['}']) ++ [] ∧
    substitute_env_vars
      (fun v => if v = ("HOME").data then some ("/root").data else none)
      (ConfigValue.int 7) = ConfigValue.int 7 := by
  have h := env_substitution
    (fun v => if v = ("HOME").data then some ("/root").data else none)
  refine ⟨by decide, ?_, ?_, (h.2.2.2.2.1 7)⟩
  · have h1 := h.1 ("key: ").data ("HOME").data ("/x").data
      (by decide) (by decide) (by decide)
    exact h1.trans (by simp)
  · have h2 := h.1 ("a: ").data ("MISSING").data []
      (by decide) (by decide) (by decide)
    exact h2.trans (by simp [substitute_env_vars_chars])
